import Mathlib

/-!
# Verification of sveltefire firestore stores

A shallow embedding of `src/lib/stores/firestore.ts` (and the earlier
variant of the same module that additionally exports `getDocValue` and
`getCollectionValue`).  The module wraps the Firestore SDK's `onSnapshot`
subscriptions in Svelte `writable` stores.

The embedding consists of:

* a model of JavaScript values and plain objects (`JsValue`, `Obj`) with
  the semantics of object-literal spread (`objSet`, `spreadInto`);
* a model of the relevant Firestore SDK surface: `Firestore` instances,
  `doc` / `collection` path resolution, document and query snapshots;
* an operational model of Svelte's `writable(value, start)` store:
  a `StoreModel` records the initial value and the optional
  start-stop notifier, and a `Session` runs subscribe / unsubscribe /
  snapshot-delivery steps while logging the effects the wrapper performs
  (vendor `onSnapshot` registrations, vendor unsubscribes, values
  delivered to subscribers).  Vendor snapshot delivery is asynchronous:
  registering a listener performs no synchronous callback, snapshots
  arrive only as later `Op.snap` steps;
* the exported functions `docStore`, `collectionStore`, `userDataStore`,
  `getDocValue`, `getCollectionValue` translated from the source.
-/

/-- A JavaScript value stored in a document field: a string, a number, a
document reference (identified by its path), or `null`. -/
inductive JsValue where
  | str (s : String)
  | num (n : Int)
  | refv (path : String)
  | null
deriving DecidableEq, Repr

/-- A plain JavaScript object: fields in insertion order. -/
abbrev Obj := List (String × JsValue)

/-- JS property assignment `o[k] = v`: overwrites in place if the key is
present (keeping its position), otherwise appends. -/
def objSet (o : Obj) (k : String) (v : JsValue) : Obj :=
  if o.any (fun kv => kv.1 == k) then
    o.map (fun kv => if kv.1 == k then (k, v) else kv)
  else
    o ++ [(k, v)]

/-- Object-literal spread `{ ...base, ...extra }` restricted to what the
source uses: the fields of `extra` are assigned onto `base` in order,
later fields overriding earlier ones. -/
def spreadInto (base : Obj) (extra : Obj) : Obj :=
  extra.foldl (fun acc kv => objSet acc kv.1 kv.2) base

/-- An initialized Firestore instance, opaque to the wrapper (the code
only passes it to `doc` / `collection`).  The wrapper receives
`Option Firestore`: `none` models an uninitialized (falsy) client. -/
abbrev Firestore := Nat

/-- A Firestore `DocumentReference`, identified by its slash-separated
path. -/
structure DocumentReference where
  path : String
deriving DecidableEq, Repr

/-- `ref.id`: the last segment of the document path. -/
def DocumentReference.id (r : DocumentReference) : String :=
  (r.path.splitOn "/").getLastD ""

/-- A Firestore `CollectionReference`, identified by its path. -/
structure CollectionReference where
  path : String
deriving DecidableEq, Repr

/-- A Firestore `Query`, opaque to the wrapper (never inspected, only
passed to `onSnapshot`). -/
structure FsQuery where
  qid : Nat
deriving DecidableEq, Repr

/-- SDK `doc(firestore, path)`: resolves a path to a document
reference. -/
def doc (_fs : Firestore) (path : String) : DocumentReference :=
  ⟨path⟩

/-- SDK `collection(firestore, path)`: resolves a path to a collection
reference. -/
def collection (_fs : Firestore) (path : String) : CollectionReference :=
  ⟨path⟩

/-- The `ref` argument of `docStore`: a document path or an existing
reference. -/
inductive DocRefArg where
  | path (p : String)
  | ref (r : DocumentReference)
deriving DecidableEq, Repr

/-- What `collectionStore` subscribes to after resolution: a collection
reference or a query. -/
inductive ColTarget where
  | colRef (c : CollectionReference)
  | qry (q : FsQuery)
deriving DecidableEq, Repr

/-- The `ref` argument of `collectionStore`: a collection path, a
collection reference, or a query. -/
inductive CollRefArg where
  | path (p : String)
  | colRef (c : CollectionReference)
  | qry (q : FsQuery)
deriving DecidableEq, Repr

/-- A document snapshot: `dataOpt = none` models `snapshot.data()`
returning `undefined` (document does not exist). -/
structure DocSnapshot where
  dataOpt : Option Obj
deriving DecidableEq, Repr

/-- A query document snapshot `s`: its `s.id`, the path of `s.ref`, and
its `s.data()` (always defined for query documents). -/
structure QueryDocSnap where
  id : String
  refPath : String
  data : Obj
deriving DecidableEq, Repr

/-- A query snapshot: its ordered list of document snapshots. -/
structure QuerySnapshot where
  docs : List QueryDocSnap
deriving DecidableEq, Repr

/-- The value held by a `docStore`: `undefined` (omitted `startWith`),
`null`, or document data. -/
inductive DocValue where
  | undef
  | nullv
  | obj (o : Obj)
deriving DecidableEq, Repr

/-- The value held by a `collectionStore`: `none` models `undefined`
(possible `startWith` in the earlier variant), otherwise an array of
records. -/
abbrev CollValue := Option (List Obj)

/-- Svelte `safe_not_equal` specialized to `DocValue`.  The snapshot
handler only ever passes `null` or a freshly allocated object to `set`;
`null === null` and `undefined === undefined`, while a fresh object is
never reference-equal to the previous value. -/
def docNotEq : DocValue → DocValue → Bool
  | .nullv, .nullv => false
  | .undef, .undef => false
  | _, _ => true

/-- Svelte `safe_not_equal` specialized to `CollValue`: the snapshot
handler always passes a freshly allocated array, never reference-equal
to the previous value. -/
def collNotEq : CollValue → CollValue → Bool :=
  fun _ _ => true

/-- The model of a Svelte `writable(initial, start)` store as the
wrapper builds it: `α` is the value type, `σ` the vendor snapshot type,
`τ` the vendor subscription target type.  `start = some (t, f)` models
the start-stop notifier `(set) => { unsubscribe = onSnapshot(t, snap =>
set (f snap)); return () => unsubscribe(); }`; `start = none` models
`writable` called without a notifier (the fallback branches).  `notEq`
is Svelte's `safe_not_equal` at type `α`. -/
structure StoreModel (α σ τ : Type) where
  initial : α
  notEq : α → α → Bool
  start : Option (τ × (σ → α))

/-- Svelte's `writable` constructor: it only records the initial value
and the notifier; the notifier is not invoked at construction. -/
def writable (notEq : α → α → Bool) (initial : α)
    (start : Option (τ × (σ → α)) := none) : StoreModel α σ τ :=
  ⟨initial, notEq, start⟩

/-- A running session of a store: the Svelte-internal state (current
`value`, set of subscriber ids, whether the `stop` callback is pending)
together with a log of the observable effects: `registered` lists the
targets of the vendor `onSnapshot` calls made so far, `unregistered`
counts the vendor unsubscribes, `emitted` logs every `(subscriber,
value)` delivery to a subscriber callback. -/
structure Session (α σ τ : Type) where
  model : StoreModel α σ τ
  value : α
  subs : List Nat
  stopSet : Bool
  registered : List τ
  unregistered : Nat
  emitted : List (Nat × α)

/-- The state right after store construction: the initial value, no
subscribers, no vendor subscription, empty effect log. -/
def Session.init (m : StoreModel α σ τ) : Session α σ τ :=
  ⟨m, m.initial, [], false, [], 0, []⟩

/-- An external event on a store session: a new subscriber, a
subscriber's unsubscribe call, or an asynchronous vendor snapshot
delivery. -/
inductive Op (σ : Type) where
  | sub (i : Nat)
  | unsub (i : Nat)
  | snap (s : σ)

/-- Whether an event is a subscription. -/
def Op.isSub : Op σ → Bool
  | .sub _ => true
  | _ => false

/-- One step of Svelte's store semantics.
`sub i`: the subscriber is added; if it is the first, the start notifier
runs (registering the vendor `onSnapshot` when one was supplied) and
`stop` is set; the new subscriber is then run synchronously with the
current value.
`unsub i`: the subscriber is removed; if none remain and `stop` is set,
`stop()` runs (invoking the captured vendor unsubscribe when a notifier
was supplied) and `stop` is cleared.
`snap s`: only a live, currently registered listener receives
snapshots; the handler calls `set` with the mapped value, which updates
`value` and notifies every subscriber when `safe_not_equal` holds. -/
def step (st : Session α σ τ) : Op σ → Session α σ τ
  | .sub i =>
    let wasEmpty := st.subs.isEmpty
    let st1 : Session α σ τ := { st with subs := i :: st.subs }
    let st2 : Session α σ τ :=
      if wasEmpty then
        match st.model.start with
        | some (t, _) =>
          { st1 with stopSet := true, registered := st1.registered ++ [t] }
        | none => { st1 with stopSet := true }
      else st1
    { st2 with emitted := st2.emitted ++ [(i, st2.value)] }
  | .unsub i =>
    let newSubs := st.subs.erase i
    let st1 : Session α σ τ := { st with subs := newSubs }
    if newSubs.isEmpty && st.stopSet then
      match st.model.start with
      | some _ =>
        { st1 with stopSet := false, unregistered := st1.unregistered + 1 }
      | none => { st1 with stopSet := false }
    else st1
  | .snap s =>
    match st.model.start with
    | some (_, f) =>
      if st.stopSet then
        let v := f s
        if st.model.notEq st.value v then
          { st with value := v,
                    emitted := st.emitted ++ st.subs.map (fun j => (j, v)) }
        else st
      else st
    | none => st

/-- Running a sequence of events from a session state. -/
def runOps (st : Session α σ τ) (ops : List (Op σ)) : Session α σ τ :=
  ops.foldl step st

/-- The snapshot handler of `docStore`:
`set((snapshot.data() as T) ?? null)` — `undefined` is coalesced to
`null`. -/
def docSnapMap (s : DocSnapshot) : DocValue :=
  match s.dataOpt with
  | some o => .obj o
  | none => .nullv

/-- The record `{ id: s.id, ref: s.ref, ...s.data() }` built for one
query document snapshot. -/
def collDocRecord (d : QueryDocSnap) : Obj :=
  spreadInto (objSet (objSet [] "id" (.str d.id)) "ref" (.refv d.refPath)) d.data

/-- The snapshot handler of `collectionStore`:
`set(snapshot.docs.map(s => ({ id: s.id, ref: s.ref, ...s.data() })))`. -/
def collSnapMap (s : QuerySnapshot) : CollValue :=
  some (s.docs.map collDocRecord)

/-- The warning printed by both fallback branches for a missing SDK. -/
def warnMsg : String :=
  "Firestore is not initialized. Are you missing FirebaseApp as a parent component?"

/-- What `docStore` returns, together with the `console.warn` calls the
invocation performed. -/
structure DocStoreResult where
  store : StoreModel DocValue DocSnapshot DocumentReference
  ref : Option DocumentReference
  id : String
  warnings : List String

/-- `docStore(ref, startWith?)` from `firestore.ts` (identically, the
two-argument body of `docStore(firestore, ref, startWith?)` from the
earlier variant; the bodies coincide, the only difference being whether
`firestore` comes from `getFirebaseContext()` or a parameter).
`window` models `globalThis.window` being present; `firestore = none`
models a falsy firestore instance. -/
def docStore (window : Bool) (firestore : Option Firestore)
    (ref : DocRefArg) (startWith : DocValue := .undef) : DocStoreResult :=
  if !window then
    { store := writable docNotEq startWith, ref := none, id := "", warnings := [] }
  else
    match firestore with
    | none =>
      { store := writable docNotEq .nullv, ref := none, id := "",
        warnings := [warnMsg] }
    | some fs =>
      let docRef := match ref with
        | .path p => doc fs p
        | .ref r => r
      { store := writable docNotEq startWith (some (docRef, docSnapMap)),
        ref := some docRef, id := docRef.id, warnings := [] }

/-- What `collectionStore` returns, together with the `console.warn`
calls the invocation performed. -/
structure CollectionStoreResult where
  store : StoreModel CollValue QuerySnapshot ColTarget
  ref : Option ColTarget
  warnings : List String

/-- The shared body of both versions of `collectionStore`; `startWith`
is the already-defaulted argument (`none` = `undefined`). -/
def collectionStoreCore (window : Bool) (firestore : Option Firestore)
    (ref : CollRefArg) (startWith : CollValue) : CollectionStoreResult :=
  if !window then
    { store := writable collNotEq startWith, ref := none, warnings := [] }
  else
    match firestore with
    | none =>
      { store := writable collNotEq (some []), ref := none,
        warnings := [warnMsg] }
    | some fs =>
      let colRef := match ref with
        | .path p => ColTarget.colRef (collection fs p)
        | .colRef c => ColTarget.colRef c
        | .qry q => ColTarget.qry q
      { store := writable collNotEq startWith (some (colRef, collSnapMap)),
        ref := some colRef, warnings := [] }

/-- `collectionStore(ref, startWith = [])` from `firestore.ts`: the
default for `startWith` is the empty array, and the argument is always
an array. -/
def collectionStore (window : Bool) (firestore : Option Firestore)
    (ref : CollRefArg) (startWith : List Obj := []) : CollectionStoreResult :=
  collectionStoreCore window firestore ref (some startWith)

/-- `collectionStore(firestore, ref, startWith = undefined)` from the
earlier variant: the default for `startWith` is `undefined`. -/
def collectionStoreV0 (window : Bool) (firestore : Option Firestore)
    (ref : CollRefArg) (startWith : CollValue := none) : CollectionStoreResult :=
  collectionStoreCore window firestore ref startWith

/-- Modelled from the spec: the authentication-state store `userStore`
(defined in `auth.js`, not part of the sources) emits the current
authenticated user or a falsy value when no user is present.  A user is
known to the wrapper only through its `uid`. -/
structure User where
  uid : String
deriving DecidableEq, Repr

/-- What the `derived` callback of `userDataStore` does for one upstream
emission of `userStore`: either `set(null)` (no authenticated user), or
subscribe the derived `set` to an inner `docStore` — forwarding every
value that store delivers — with the inner store's construction result
recorded. -/
inductive UserDataAction where
  | setNull
  | forwardDoc (res : DocStoreResult)

/-- The `derived(user, ($user, set) => ...)` callback of
`userDataStore`: `if (!$user) return set(null)`, otherwise subscribe to
`docStore(collectionPath + "/" + $user.uid)` (no `startWith`). -/
def userDataCallback (window : Bool) (firestore : Option Firestore)
    (collectionPath : String) (u : Option User) : UserDataAction :=
  match u with
  | none => .setNull
  | some user =>
    .forwardDoc (docStore window firestore
      (.path (collectionPath ++ "/" ++ user.uid)))

/-- `userDataStore(collectionPath = "users")`: a store derived from
`userStore`, modelled as the function applied to each upstream user
value (Svelte `derived` runs the callback on every upstream emission). -/
def userDataStore (window : Bool) (firestore : Option Firestore)
    (collectionPath : String := "users") : Option User → UserDataAction :=
  userDataCallback window firestore collectionPath

/-- The value captured by a subscriber callback `(val) => (value = val)`
of subscriber `i`: the last value delivered to `i`, or `dflt`
(`undefined`) if none was delivered. -/
def capturedValue (emitted : List (Nat × α)) (i : Nat) (dflt : α) : α :=
  ((emitted.filter (fun p => p.1 == i)).map (fun p => p.2)).getLastD dflt

/-- `getDocValue(firestore, ref, startWith?)` from the earlier variant:
construct the doc store, `store.subscribe(cb)()` — subscribe, let the
synchronous delivery run, immediately unsubscribe — and return the
captured value.  The final session state is returned alongside to
expose the effects the call performed. -/
def getDocValue (window : Bool) (firestore : Option Firestore)
    (ref : DocRefArg) (startWith : DocValue := .undef) :
    DocValue × Session DocValue DocSnapshot DocumentReference :=
  let res := docStore window firestore ref startWith
  let s1 := step (Session.init res.store) (.sub 0)
  let v := capturedValue s1.emitted 0 .undef
  (v, step s1 (.unsub 0))

/-- `getCollectionValue(firestore, ref, startWith = undefined)` from the
earlier variant: same one-shot subscribe-and-unsubscribe read on a
collection store. -/
def getCollectionValue (window : Bool) (firestore : Option Firestore)
    (ref : CollRefArg) (startWith : CollValue := none) :
    CollValue × Session CollValue QuerySnapshot ColTarget :=
  let res := collectionStoreV0 window firestore ref startWith
  let s1 := step (Session.init res.store) (.sub 0)
  let v := capturedValue s1.emitted 0 none
  (v, step s1 (.unsub 0))

/-- Invariant of a store built without a start notifier: no vendor
subscription is ever registered, the value never changes, and every
delivery to a subscriber carries the initial value. -/
def NoStartInv (m : StoreModel α σ τ) (st : Session α σ τ) : Prop :=
  st.model.start = none ∧ st.model.initial = m.initial ∧
    st.value = m.initial ∧ st.registered = [] ∧
    ∀ p ∈ st.emitted, p.2 = m.initial

lemma noStartInv_init (m : StoreModel α σ τ) (h : m.start = none) :
    NoStartInv m (Session.init m) := by
  refine ⟨h, rfl, rfl, rfl, ?_⟩
  intro p hp
  simp [Session.init] at hp


lemma step_sub_eq (st : Session α σ τ) (i : Nat) :
    step st (.sub i) =
      { st with subs := i :: st.subs,
                stopSet := st.stopSet || st.subs.isEmpty,
                registered :=
                  if st.subs.isEmpty then
                    match st.model.start with
                    | some (t, _) => st.registered ++ [t]
                    | none => st.registered
                  else st.registered,
                emitted := st.emitted ++ [(i, st.value)] } := by
  by_cases hw : st.subs.isEmpty <;> cases hs : st.model.start <;>
    simp [step, hw, hs]

lemma step_unsub_eq (st : Session α σ τ) (i : Nat) :
    step st (.unsub i) =
      if (st.subs.erase i).isEmpty && st.stopSet then
        { st with subs := st.subs.erase i, stopSet := false,
                  unregistered :=
                    match st.model.start with
                    | some _ => st.unregistered + 1
                    | none => st.unregistered }
      else { st with subs := st.subs.erase i } := by
  by_cases hc : (st.subs.erase i).isEmpty && st.stopSet <;>
    cases hs : st.model.start <;> simp [step, hc, hs]

lemma step_snap_none (st : Session α σ τ) (s : σ)
    (h : st.model.start = none) : step st (.snap s) = st := by
  simp [step, h]

lemma step_snap_some (st : Session α σ τ) (s : σ) (t : τ) (f : σ → α)
    (h : st.model.start = some (t, f)) :
    step st (.snap s) =
      if st.stopSet then
        if st.model.notEq st.value (f s) then
          { st with value := f s,
                    emitted := st.emitted ++ st.subs.map (fun j => (j, f s)) }
        else st
      else st := by
  simp [step, h]

lemma noStartInv_step (m : StoreModel α σ τ) (st : Session α σ τ)
    (h : NoStartInv m st) (op : Op σ) : NoStartInv m (step st op) := by
  obtain ⟨hstart, hinit, hval, hreg, hemit⟩ := h
  unfold NoStartInv
  cases op with
  | sub i =>
    rw [step_sub_eq]
    refine ⟨hstart, hinit, hval, ?_, ?_⟩
    · by_cases hw : st.subs.isEmpty <;> simp [hw, hstart, hreg]
    · intro p hp
      simp only [List.mem_append, List.mem_singleton] at hp
      rcases hp with hp | hp
      · exact hemit p hp
      · rw [hp]; exact hval
  | unsub i =>
    rw [step_unsub_eq]
    by_cases hc : (st.subs.erase i).isEmpty && st.stopSet
    · rw [if_pos hc]; exact ⟨hstart, hinit, hval, hreg, hemit⟩
    · rw [if_neg hc]; exact ⟨hstart, hinit, hval, hreg, hemit⟩
  | snap s =>
    rw [step_snap_none st s hstart]
    exact ⟨hstart, hinit, hval, hreg, hemit⟩

lemma noStartInv_runOps (m : StoreModel α σ τ) (st : Session α σ τ)
    (h : NoStartInv m st) (ops : List (Op σ)) :
    NoStartInv m (runOps st ops) := by
  induction ops generalizing st with
  | nil => exact h
  | cons op rest ih => exact ih _ (noStartInv_step m _ h op)

/-- Invariant of any session on which no subscription event has been
run: no vendor listener was registered and `stop` is not pending. -/
def NoSubInv (st : Session α σ τ) : Prop :=
  st.registered = [] ∧ st.stopSet = false

lemma noSubInv_step (st : Session α σ τ) (h : NoSubInv st) (op : Op σ)
    (hop : op.isSub = false) : NoSubInv (step st op) := by
  obtain ⟨hreg, hstop⟩ := h
  unfold NoSubInv
  cases op with
  | sub i => simp [Op.isSub] at hop
  | unsub i =>
    rw [step_unsub_eq]
    simp only [hstop, Bool.and_false, Bool.false_eq_true, if_false]
    exact ⟨hreg, trivial⟩
  | snap s =>
    cases hs : st.model.start with
    | none =>
      rw [step_snap_none st s hs]
      exact ⟨hreg, hstop⟩
    | some tf =>
      obtain ⟨t, f⟩ := tf
      rw [step_snap_some st s t f hs]
      simp only [hstop, Bool.false_eq_true, if_false]
      exact ⟨hreg, trivial⟩

lemma noSubInv_runOps (st : Session α σ τ) (h : NoSubInv st)
    (ops : List (Op σ)) (hops : ∀ op ∈ ops, op.isSub = false) :
    NoSubInv (runOps st ops) := by
  induction ops generalizing st with
  | nil => exact h
  | cons op rest ih =>
    exact ih _ (noSubInv_step st h op (hops op (by simp)))
      (fun o ho => hops o (by simp [ho]))

/-- C1: SSR fallback — when `globalThis.window` is absent, `docStore`
and `collectionStore` return without registering any vendor
subscription (no matter what events later hit the store), the returned
store's only emitted value is the `startWith` argument (`undefined` for
`docStore` when omitted, the empty array for `collectionStore` in
`firestore.ts`), `ref` is `null` and, for `docStore`, `id` is the empty
string. -/
theorem ssr_fallback (fs : Option Firestore) (r : DocRefArg)
    (sw : DocValue) (cr : CollRefArg) (csw : List Obj)
    (dops : List (Op DocSnapshot)) (cops : List (Op QuerySnapshot)) :
    (docStore false fs r sw).ref = none ∧
    (docStore false fs r sw).id = "" ∧
    (docStore false fs r sw).warnings = [] ∧
    (docStore false fs r).store.initial = DocValue.undef ∧
    (collectionStore false fs cr).store.initial = some [] ∧
    (collectionStore false fs cr csw).ref = none ∧
    (collectionStore false fs cr csw).warnings = [] ∧
    (runOps (Session.init (docStore false fs r sw).store) dops).registered
      = [] ∧
    (∀ p ∈ (runOps (Session.init (docStore false fs r sw).store) dops).emitted,
      p.2 = sw) ∧
    (runOps (Session.init (collectionStore false fs cr csw).store) cops).registered
      = [] ∧
    (∀ p ∈ (runOps (Session.init (collectionStore false fs cr csw).store) cops).emitted,
      p.2 = some csw) := by
  have hd := noStartInv_runOps (docStore false fs r sw).store _
    (noStartInv_init _ rfl) dops
  have hc := noStartInv_runOps (collectionStore false fs cr csw).store _
    (noStartInv_init _ rfl) cops
  exact ⟨rfl, rfl, rfl, rfl, rfl, rfl, rfl, hd.2.2.2.1,
    fun p hp => hd.2.2.2.2 p hp, hc.2.2.2.1, fun p hp => hc.2.2.2.2 p hp⟩

/-- C2: graceful degradation — when `window` exists but the firestore
instance is falsy, both functions return normally (the embedding is a
total function), emit the console warning, register no vendor
subscription whatever events follow, and the returned store's only
value is `null` (`docStore`) resp. the empty array
(`collectionStore`), with `ref = null`. -/
theorem missing_sdk_fallback (r : DocRefArg) (sw : DocValue)
    (cr : CollRefArg) (csw : List Obj) (csw0 : CollValue)
    (dops : List (Op DocSnapshot)) (cops cops0 : List (Op QuerySnapshot)) :
    (docStore true none r sw).warnings = [warnMsg] ∧
    (docStore true none r sw).ref = none ∧
    (docStore true none r sw).store.initial = DocValue.nullv ∧
    (collectionStore true none cr csw).warnings = [warnMsg] ∧
    (collectionStore true none cr csw).ref = none ∧
    (collectionStore true none cr csw).store.initial = some [] ∧
    (collectionStoreV0 true none cr csw0).store.initial = some [] ∧
    (runOps (Session.init (docStore true none r sw).store) dops).registered
      = [] ∧
    (∀ p ∈ (runOps (Session.init (docStore true none r sw).store) dops).emitted,
      p.2 = DocValue.nullv) ∧
    (runOps (Session.init (collectionStore true none cr csw).store) cops).registered
      = [] ∧
    (∀ p ∈ (runOps (Session.init (collectionStore true none cr csw).store) cops).emitted,
      p.2 = some []) ∧
    (∀ p ∈ (runOps (Session.init (collectionStoreV0 true none cr csw0).store) cops0).emitted,
      p.2 = some []) := by
  have hd := noStartInv_runOps (docStore true none r sw).store _
    (noStartInv_init _ rfl) dops
  have hc := noStartInv_runOps (collectionStore true none cr csw).store _
    (noStartInv_init _ rfl) cops
  have hc0 := noStartInv_runOps (collectionStoreV0 true none cr csw0).store _
    (noStartInv_init _ rfl) cops0
  exact ⟨rfl, rfl, rfl, rfl, rfl, rfl, rfl, hd.2.2.2.1,
    fun p hp => hd.2.2.2.2 p hp, hc.2.2.2.1, fun p hp => hc.2.2.2.2 p hp,
    fun p hp => hc0.2.2.2.2 p hp⟩

/-- C3: path resolution in the live branch — a string argument is
resolved through `doc(firestore, ref)` resp. `collection(firestore,
ref)` and the resolved reference is returned in the `ref` field; an
argument that is already a reference or query is returned unchanged. -/
theorem path_resolution (fs : Firestore) (p pc : String)
    (r : DocumentReference) (c : CollectionReference) (q : FsQuery)
    (sw : DocValue) (csw : List Obj) :
    (docStore true (some fs) (.path p) sw).ref = some (doc fs p) ∧
    (docStore true (some fs) (.ref r) sw).ref = some r ∧
    (collectionStore true (some fs) (.path pc) csw).ref
      = some (.colRef (collection fs pc)) ∧
    (collectionStore true (some fs) (.colRef c) csw).ref = some (.colRef c) ∧
    (collectionStore true (some fs) (.qry q) csw).ref = some (.qry q) :=
  ⟨rfl, rfl, rfl, rfl, rfl⟩

/-- C4: snapshot mapping — delivering a vendor snapshot to a live,
activated store sets the `collectionStore` value to `snapshot.docs`
mapped element-wise, in snapshot order, to records
`{ id: s.id, ref: s.ref, ...s.data() }`, and the `docStore` value to
`snapshot.data()` with `undefined` replaced by `null`. -/
theorem snapshot_mapping (fs : Firestore) (r : DocRefArg) (cr : CollRefArg)
    (sw : DocValue) (csw : List Obj)
    (stD : Session DocValue DocSnapshot DocumentReference)
    (stC : Session CollValue QuerySnapshot ColTarget)
    (hD : stD.model = (docStore true (some fs) r sw).store)
    (hDs : stD.stopSet = true)
    (hC : stC.model = (collectionStore true (some fs) cr csw).store)
    (hCs : stC.stopSet = true)
    (ds : DocSnapshot) (qs : QuerySnapshot) :
    (step stC (.snap qs)).value =
      some (qs.docs.map (fun d =>
        spreadInto (objSet (objSet [] "id" (.str d.id)) "ref" (.refv d.refPath))
          d.data)) ∧
    (step stD (.snap ds)).value =
      (match ds.dataOpt with
       | some o => DocValue.obj o
       | none => DocValue.nullv) ∧
    (ds.dataOpt = none → (step stD (.snap ds)).value = DocValue.nullv) := by
  obtain ⟨tC, hsC⟩ : ∃ t, stC.model.start = some (t, collSnapMap) := by
    rw [hC]; exact ⟨_, rfl⟩
  obtain ⟨tD, hsD⟩ : ∃ t, stD.model.start = some (t, docSnapMap) := by
    rw [hD]; exact ⟨_, rfl⟩
  have hneC : stC.model.notEq = collNotEq := by rw [hC]; rfl
  have hneD : stD.model.notEq = docNotEq := by rw [hD]; rfl
  have hcoll : (step stC (.snap qs)).value =
      some (qs.docs.map (fun d =>
        spreadInto (objSet (objSet [] "id" (.str d.id)) "ref" (.refv d.refPath))
          d.data)) := by
    rw [step_snap_some stC qs tC collSnapMap hsC]
    simp [hCs, hneC, collNotEq, collSnapMap, collDocRecord]
  have hdoc : (step stD (.snap ds)).value =
      (match ds.dataOpt with
       | some o => DocValue.obj o
       | none => DocValue.nullv) := by
    rw [step_snap_some stD ds tD docSnapMap hsD]
    cases hds : ds.dataOpt with
    | some o =>
      cases hv : stD.value <;>
        simp [hDs, hneD, docNotEq, docSnapMap, hds]
    | none =>
      cases hv : stD.value <;>
        simp [hDs, hneD, docNotEq, docSnapMap, hds, hv]
  refine ⟨hcoll, hdoc, fun hnone => ?_⟩
  rw [hdoc, hnone]

/-- Witness for C4 at concrete inputs: a live doc store (path `a/b`)
activated by subscriber 0 receiving a snapshot with data
`{x: 1}` holds that object, and a live collection store (path `c`)
receiving a one-document snapshot holds the mapped record. -/
theorem snapshot_mapping_witness :
    (step (step (Session.init
        (docStore true (some 0) (.path "a/b") .undef).store) (.sub 0))
      (.snap ⟨some [("x", .num 1)]⟩)).value = DocValue.obj [("x", .num 1)] ∧
    (step (step (Session.init
        (collectionStore true (some 0) (.path "c")).store) (.sub 0))
      (.snap ⟨[⟨"d1", "c/d1", [("y", .num 2)]⟩]⟩)).value =
      some [[("id", .str "d1"), ("ref", .refv "c/d1"), ("y", .num 2)]] := by
  have h := snapshot_mapping 0 (.path "a/b") (.path "c") .undef []
    (step (Session.init
      (docStore true (some 0) (.path "a/b") .undef).store) (.sub 0))
    (step (Session.init
      (collectionStore true (some 0) (.path "c")).store) (.sub 0))
    rfl rfl rfl rfl ⟨some [("x", .num 1)]⟩ ⟨[⟨"d1", "c/d1", [("y", .num 2)]⟩]⟩
  exact ⟨h.2.1, by rw [h.1]; decide⟩

/-- Counterexample to C5 ("forwarding without alteration"): a live doc
store receiving a snapshot whose `data()` is `undefined` emits `null`,
not the delivered `undefined`; and a live collection store receiving a
document whose `data()` is the empty object emits a record carrying
`id` and `ref` fields, not the delivered empty object.  So the emitted
values are not exactly what the SDK delivered. -/
theorem forwarding_unaltered_counterexample :
    (step (step (Session.init
        (docStore true (some 0) (.path "a/b") .undef).store) (.sub 0))
      (.snap ⟨none⟩)).value = DocValue.nullv ∧
    DocValue.nullv ≠ DocValue.undef ∧
    (step (step (Session.init
        (collectionStore true (some 0) (.path "c")).store) (.sub 0))
      (.snap ⟨[⟨"d1", "c/d1", []⟩]⟩)).value =
      some [[("id", JsValue.str "d1"), ("ref", JsValue.refv "c/d1")]] ∧
    ([[("id", JsValue.str "d1"), ("ref", JsValue.refv "c/d1")]] : List Obj)
      ≠ [([] : Obj)] := by
  refine ⟨?_, by decide, ?_, by decide⟩ <;> decide

/-- C5 amended: the wrapper forwards snapshot values up to two fixed
transformations — `docStore` emits exactly `snapshot.data()` whenever
it is defined and `null` when it is `undefined`, and `collectionStore`
emits, in snapshot order, each document's `data()` augmented with the
document's `id` and `ref` fields (fields of `data()` overriding them on
collision); no other alteration occurs. -/
theorem forwarding_amended (fs : Firestore) (r : DocRefArg)
    (cr : CollRefArg) (sw : DocValue) (csw : List Obj) (o : Obj)
    (stD : Session DocValue DocSnapshot DocumentReference)
    (stC : Session CollValue QuerySnapshot ColTarget)
    (hD : stD.model = (docStore true (some fs) r sw).store)
    (hDs : stD.stopSet = true)
    (hC : stC.model = (collectionStore true (some fs) cr csw).store)
    (hCs : stC.stopSet = true)
    (qs : QuerySnapshot) :
    (step stD (.snap ⟨some o⟩)).value = DocValue.obj o ∧
    (step stD (.snap ⟨none⟩)).value = DocValue.nullv ∧
    (step stC (.snap qs)).value = some (qs.docs.map
      (fun d => spreadInto [("id", .str d.id), ("ref", .refv d.refPath)] d.data)) := by
  obtain ⟨tD, hsD⟩ : ∃ t, stD.model.start = some (t, docSnapMap) := by
    rw [hD]; exact ⟨_, rfl⟩
  obtain ⟨tC, hsC⟩ : ∃ t, stC.model.start = some (t, collSnapMap) := by
    rw [hC]; exact ⟨_, rfl⟩
  have hneD : stD.model.notEq = docNotEq := by rw [hD]; rfl
  have hneC : stC.model.notEq = collNotEq := by rw [hC]; rfl
  refine ⟨?_, ?_, ?_⟩
  · rw [step_snap_some stD _ tD docSnapMap hsD]
    cases hv : stD.value <;> simp [hDs, hneD, docNotEq, docSnapMap]
  · rw [step_snap_some stD _ tD docSnapMap hsD]
    cases hv : stD.value <;> simp [hDs, hneD, docNotEq, docSnapMap, hv]
  · rw [step_snap_some stC qs tC collSnapMap hsC]
    simp [hCs, hneC, collNotEq, collSnapMap, collDocRecord, objSet, spreadInto]

/-- Witness for the amended C5 at concrete inputs: defined document
data `{x: 1}` is forwarded exactly; `undefined` becomes `null`; a
collection document with data `{y: 2}` is emitted as its data plus the
`id` and `ref` fields. -/
theorem forwarding_amended_witness :
    (step (step (Session.init
        (docStore true (some 0) (.path "a/b") .undef).store) (.sub 0))
      (.snap ⟨some [("x", .num 1)]⟩)).value = DocValue.obj [("x", .num 1)] ∧
    (step (step (Session.init
        (docStore true (some 0) (.path "a/b") .undef).store) (.sub 0))
      (.snap ⟨none⟩)).value = DocValue.nullv ∧
    (step (step (Session.init
        (collectionStore true (some 0) (.path "c")).store) (.sub 0))
      (.snap ⟨[⟨"d2", "c/d2", [("y", .num 2)]⟩]⟩)).value =
      some [[("id", .str "d2"), ("ref", .refv "c/d2"), ("y", .num 2)]] := by
  have h := forwarding_amended 0 (.path "a/b") (.path "c") .undef []
    [("x", .num 1)]
    (step (Session.init
      (docStore true (some 0) (.path "a/b") .undef).store) (.sub 0))
    (step (Session.init
      (collectionStore true (some 0) (.path "c")).store) (.sub 0))
    rfl rfl rfl rfl ⟨[⟨"d2", "c/d2", [("y", .num 2)]⟩]⟩
  exact ⟨h.1, h.2.1, by rw [h.2.2]; decide⟩

/-- C6: lazy activation — in the live branch, constructing the store
performs no `onSnapshot` registration, and none happens under any
sequence of events without a subscription; the registration on the
resolved reference happens exactly when the first subscriber arrives. -/
theorem lazy_activation (fs : Firestore) (r : DocRefArg) (cr : CollRefArg)
    (sw : DocValue) (csw : List Obj) (i j : Nat)
    (dops : List (Op DocSnapshot)) (cops : List (Op QuerySnapshot))
    (hd : ∀ op ∈ dops, op.isSub = false)
    (hc : ∀ op ∈ cops, op.isSub = false) :
    (Session.init (docStore true (some fs) r sw).store).registered = [] ∧
    (Session.init (collectionStore true (some fs) cr csw).store).registered
      = [] ∧
    (runOps (Session.init (docStore true (some fs) r sw).store) dops).registered
      = [] ∧
    (runOps (Session.init (collectionStore true (some fs) cr csw).store) cops).registered
      = [] ∧
    (step (Session.init (docStore true (some fs) r sw).store) (.sub i)).registered
      = (docStore true (some fs) r sw).ref.toList ∧
    (step (Session.init (collectionStore true (some fs) cr csw).store) (.sub j)).registered
      = (collectionStore true (some fs) cr csw).ref.toList := by
  refine ⟨rfl, rfl, ?_, ?_, ?_, ?_⟩
  · exact (noSubInv_runOps _ ⟨rfl, rfl⟩ dops hd).1
  · exact (noSubInv_runOps _ ⟨rfl, rfl⟩ cops hc).1
  · cases r <;> rfl
  · cases cr <;> rfl

/-- Witness for C6 at concrete inputs: with snapshot deliveries and a
stray unsubscribe but no subscriber, the live doc store at path `a/b`
and the live collection store at path `c` never register, and the first
subscriber triggers exactly the registration on the resolved
reference. -/
theorem lazy_activation_witness :
    (runOps (Session.init (docStore true (some 0) (.path "a/b") .undef).store)
      [.snap ⟨none⟩, .unsub 5]).registered = [] ∧
    (step (Session.init (docStore true (some 0) (.path "a/b") .undef).store)
      (.sub 0)).registered = [doc 0 "a/b"] := by
  have h := lazy_activation 0 (.path "a/b") (.path "c") .undef [] 0 0
    [.snap ⟨none⟩, .unsub 5] []
    (by decide) (by decide)
  exact ⟨h.2.2.1, h.2.2.2.2.1⟩

/-- C7: unsubscribe tied to store teardown — in the live branch, when
the last subscriber of an activated store unsubscribes, the vendor
unsubscribe captured at registration is invoked (the count of vendor
unsubscribes increases by one) and the activation ends. -/
theorem teardown_unsubscribe (fs : Firestore) (r : DocRefArg)
    (cr : CollRefArg) (sw : DocValue) (csw : List Obj) (i j : Nat)
    (stD : Session DocValue DocSnapshot DocumentReference)
    (stC : Session CollValue QuerySnapshot ColTarget)
    (hD : stD.model = (docStore true (some fs) r sw).store)
    (hDs : stD.stopSet = true)
    (hDe : (stD.subs.erase i).isEmpty = true)
    (hC : stC.model = (collectionStore true (some fs) cr csw).store)
    (hCs : stC.stopSet = true)
    (hCe : (stC.subs.erase j).isEmpty = true) :
    (step stD (.unsub i)).unregistered = stD.unregistered + 1 ∧
    (step stD (.unsub i)).stopSet = false ∧
    (step stC (.unsub j)).unregistered = stC.unregistered + 1 ∧
    (step stC (.unsub j)).stopSet = false := by
  obtain ⟨tD, hsD⟩ : ∃ t, stD.model.start = some (t, docSnapMap) := by
    rw [hD]; exact ⟨_, rfl⟩
  obtain ⟨tC, hsC⟩ : ∃ t, stC.model.start = some (t, collSnapMap) := by
    rw [hC]; exact ⟨_, rfl⟩
  refine ⟨?_, ?_, ?_, ?_⟩ <;>
    rw [step_unsub_eq] <;>
    simp [hDe, hDs, hCe, hCs, hsD, hsC]

/-- Witness for C7 at concrete inputs: on the live doc store at `a/b`
and the live collection store at `c`, subscriber 0 subscribing and then
unsubscribing invokes the vendor unsubscribe once and clears the
pending stop. -/
theorem teardown_unsubscribe_witness :
    (step (step (Session.init
        (docStore true (some 0) (.path "a/b") .undef).store) (.sub 0))
      (.unsub 0)).unregistered = 1 ∧
    (step (step (Session.init
        (docStore true (some 0) (.path "a/b") .undef).store) (.sub 0))
      (.unsub 0)).stopSet = false ∧
    (step (step (Session.init
        (collectionStore true (some 0) (.path "c")).store) (.sub 0))
      (.unsub 0)).unregistered = 1 ∧
    (step (step (Session.init
        (collectionStore true (some 0) (.path "c")).store) (.sub 0))
      (.unsub 0)).stopSet = false := by
  have h := teardown_unsubscribe 0 (.path "a/b") (.path "c") .undef [] 0 0
    (step (Session.init
      (docStore true (some 0) (.path "a/b") .undef).store) (.sub 0))
    (step (Session.init
      (collectionStore true (some 0) (.path "c")).store) (.sub 0))
    rfl rfl rfl rfl rfl rfl
  exact h

/-- C8: `userDataStore` derives from the authentication-state store:
for each upstream user value it emits `null` when no user is present,
and otherwise subscribes to (and forwards) the doc store at
`collectionPath + "/" + user.uid`; `collectionPath` defaults to
`"users"`. -/
theorem userDataStore_composition (window : Bool) (fs : Option Firestore)
    (cp : String) (u : User) :
    userDataStore window fs cp none = UserDataAction.setNull ∧
    userDataStore window fs cp (some u) = UserDataAction.forwardDoc
      (docStore window fs (.path (cp ++ "/" ++ u.uid))) ∧
    userDataStore window fs = userDataCallback window fs "users" :=
  ⟨rfl, rfl, rfl⟩

/-- C9: `startWith` is discarded in the missing-SDK branch of
`docStore` — with `window` present and no firestore the store's value
is `null` regardless of the provided default, while the SSR branch
returns the provided default; the two fallback branches give different
values for the same arguments. -/
theorem startWith_discarded_missing_sdk (fs : Option Firestore)
    (r : DocRefArg) (o : Obj) :
    (docStore true none r (.obj o)).store.initial = DocValue.nullv ∧
    (docStore false fs r (.obj o)).store.initial = DocValue.obj o ∧
    (step (Session.init (docStore true none r (.obj o)).store)
      (.sub 0)).emitted = [(0, DocValue.nullv)] ∧
    (step (Session.init (docStore false fs r (.obj o)).store)
      (.sub 0)).emitted = [(0, DocValue.obj o)] ∧
    DocValue.nullv ≠ DocValue.obj o :=
  ⟨rfl, rfl, rfl, rfl, by simp⟩

/-- C10: `getDocValue` and `getCollectionValue` are one-shot
synchronous reads — subscribe, capture the single value delivered
synchronously at subscription, immediately unsubscribe.  In the live
branch the registered vendor listener is torn down again at once and,
since vendor snapshots arrive only asynchronously, the returned value
is the `startWith` argument (`undefined`, i.e. `DocValue.undef` resp.
`none`, when omitted), never snapshot data. -/
theorem one_shot_read (fs : Firestore) (r : DocRefArg) (cr : CollRefArg)
    (sw : DocValue) (csw : CollValue) :
    (getDocValue true (some fs) r sw).1 = sw ∧
    (getDocValue true (some fs) r).1 = DocValue.undef ∧
    (getDocValue true (some fs) r sw).2.registered.length = 1 ∧
    (getDocValue true (some fs) r sw).2.unregistered = 1 ∧
    (getDocValue true (some fs) r sw).2.stopSet = false ∧
    (getDocValue true (some fs) r sw).2.subs = [] ∧
    (getDocValue true (some fs) r sw).2.emitted = [(0, sw)] ∧
    (getCollectionValue true (some fs) cr csw).1 = csw ∧
    (getCollectionValue true (some fs) cr).1 = none ∧
    (getCollectionValue true (some fs) cr csw).2.registered.length = 1 ∧
    (getCollectionValue true (some fs) cr csw).2.unregistered = 1 ∧
    (getCollectionValue true (some fs) cr csw).2.stopSet = false ∧
    (getCollectionValue true (some fs) cr csw).2.subs = [] ∧
    (getCollectionValue true (some fs) cr csw).2.emitted = [(0, csw)] := by
  refine ⟨rfl, rfl, ?_, rfl, rfl, ?_, rfl, rfl, rfl, ?_, rfl, rfl, ?_, rfl⟩
  · cases r <;> rfl
  · cases r <;> rfl
  · cases cr <;> rfl
  · cases cr <;> rfl
